import Mathlib

/-!
Shallow embedding of the phone-OTP sign-in flow from
src/src/app/[language]/sign-in/page-content.tsx.

The flow state (form values, isSubmitting, isOtpSent, countdown) and the
observable side effects (field errors, snackbars, the token/user session sink,
and the network calls issued) are collected in one record, `FlowState`.
Each handler of the page becomes a pure function from the outcome of its
external network call and a pre-state to a post-state.  Messages are the
i18n translation keys the code passes to `t`.
-/

namespace JandiraSignIn

/-- Transport status code HTTP_CODES_ENUM.OK. -/
def HTTP_OK : Nat := 200

/-- Transport status code HTTP_CODES_ENUM.UNPROCESSABLE_ENTITY. -/
def HTTP_UNPROCESSABLE_ENTITY : Nat := 422

/-- Message key for the otp field error on a rejected code. -/
def wrongOtpMsg : String := "sign-in:alerts.wrongOTP"

/-- Message key of the success snackbar after a verified sign-in. -/
def verifySuccessMsg : String := "sign-in:alerts.success"

/-- Message key of the success snackbar after the initial OTP request. -/
def otpSentMsg : String := "sign-in:alert.otpSent"

/-- Message key of the phone field error on a failed initial OTP request. -/
def requestFailedMsg : String := "sign-in:alerts.otpResentFailed"

/-- Message key of the success snackbar after a successful resend. -/
def otpResentMsg : String := "sign-in:messages.otpResent"

/-- Message key of the error snackbar after a failed resend. -/
def resendFailedMsg : String := "sign-in:inputs.phone.validation.server.error"

/-- Form values held by react-hook-form; defaultValues sets every field "". -/
structure SignInFormData where
  fullName : String
  phone : String
  otp : String
deriving Repr, DecidableEq

/-- Payload of requestOtp; the fullName key is present only when added. -/
structure AuthPhoneRequestOtpRequest where
  phone : String
  fullName : Option String
deriving Repr, DecidableEq

/-- Payload of verifyOtp. -/
structure VerifyOtpRequest where
  phone : String
  otp : String
deriving Repr, DecidableEq

/-- Data carried by a verifyOtp response on success. -/
structure VerifyOtpData where
  token : String
  refreshToken : String
  tokenExpires : Nat
  user : String
deriving Repr, DecidableEq

/-- Argument of setTokensInfo. -/
structure TokensInfo where
  token : String
  refreshToken : String
  tokenExpires : Nat
deriving Repr, DecidableEq

/-- Snackbar severity (the variant option of enqueueSnackbar). -/
inductive Severity
  | success
  | error
deriving Repr, DecidableEq

/-- One emitted snackbar. -/
structure Snack where
  message : String
  severity : Severity
deriving Repr, DecidableEq

/-- One field-level error set through setError. -/
structure FieldError where
  field : String
  message : String
deriving Repr, DecidableEq

/-- Phase of the two-step flow (the spec's Phase enum). -/
inductive Phase
  | RequestingOtp
  | VerifyingOtp
deriving Repr, DecidableEq

/-- Outcome of an external requestOtp call: a response with some transport
    status, or a thrown exception. -/
inductive RequestOutcome
  | response (status : Nat)
  | thrown
deriving Repr, DecidableEq

/-- Outcome of an external verifyOtp call. -/
inductive VerifyOutcome
  | response (status : Nat) (data : VerifyOtpData)
  | thrown
deriving Repr, DecidableEq

/-- The whole flow state: form values and the three useState cells, together
    with the observable effect logs (field errors, snackbars, the tokens/user
    session sink, and the network calls issued). -/
structure FlowState where
  form : SignInFormData
  isSubmitting : Bool
  isOtpSent : Bool
  countdown : Nat
  errors : List FieldError
  snacks : List Snack
  tokensSink : List TokensInfo
  userSink : List String
  requestCalls : List AuthPhoneRequestOtpRequest
  verifyCalls : List VerifyOtpRequest
deriving Repr, DecidableEq

/-- Phase as derived from the isOtpSent flag. -/
def FlowState.phase (s : FlowState) : Phase :=
  if s.isOtpSent then Phase.VerifyingOtp else Phase.RequestingOtp

/-- Rule Set A phone rule from requestOtpSchema (lines 36-40): required
    (non-empty), length at least 10, all characters digits.  fullName and otp
    are unconstrained strings, so trigger on phone and fullName succeeds
    exactly when this holds of the phone value. -/
def phoneRuleA (phone : String) : Bool :=
  (phone != "") && (decide (10 ≤ phone.length) && phone.data.all (fun c => c.isDigit))

/-- Matcher of the spec's pattern on digits, at least ten of them, anchored at
    both ends. -/
def matchesTenDigitsPlus (phone : String) : Bool :=
  decide (10 ≤ phone.length) && phone.data.all (fun c => c.isDigit)

/-- Payload construction shared by lines 138-140 and 162-166: the fullName key
    is added only when the form value is truthy, i.e. a non-empty string. -/
def mkRequestPayload (f : SignInFormData) : AuthPhoneRequestOtpRequest :=
  { phone := f.phone
    fullName := if f.fullName != "" then some f.fullName else none }

/-- Shallow embedding of the submit handler body (lines 101-130).  It sets
    isSubmitting, awaits verifyOtp, and handles only the statuses
    UNPROCESSABLE_ENTITY and OK; there is no try/finally, so on a thrown call
    or any other status the handler completes with isSubmitting still true. -/
def onSubmit (outcome : VerifyOutcome) (s : FlowState) : FlowState :=
  let s1 : FlowState :=
    { s with
      isSubmitting := true
      verifyCalls := s.verifyCalls ++ [{ phone := s.form.phone, otp := s.form.otp }] }
  match outcome with
  | VerifyOutcome.thrown => s1
  | VerifyOutcome.response status data =>
    if status == HTTP_UNPROCESSABLE_ENTITY then
      { s1 with
        isSubmitting := false
        errors := s1.errors ++ [{ field := "otp", message := wrongOtpMsg }] }
    else if status == HTTP_OK then
      { s1 with
        isSubmitting := false
        snacks := s1.snacks ++ [{ message := verifySuccessMsg, severity := Severity.success }]
        tokensSink := s1.tokensSink ++
          [{ token := data.token
             refreshToken := data.refreshToken
             tokenExpires := data.tokenExpires }]
        userSink := s1.userSink ++ [data.user] }
    else s1

/-- Shallow embedding of handleRequestOtp (lines 132-158).  trigger validates
    phone and fullName under requestOtpSchema and the handler returns before
    any network call when that fails; otherwise the try/finally guarantees
    isSubmitting is cleared on every exit path, including a thrown call. -/
def handleRequestOtp (outcome : RequestOutcome) (s : FlowState) : FlowState :=
  if phoneRuleA s.form.phone then
    let s1 : FlowState := { s with isSubmitting := true }
    let s2 : FlowState :=
      { s1 with requestCalls := s1.requestCalls ++ [mkRequestPayload s1.form] }
    let s3 : FlowState :=
      match outcome with
      | RequestOutcome.thrown => s2
      | RequestOutcome.response status =>
        if status == HTTP_OK then
          { s2 with
            isOtpSent := true
            countdown := 30
            snacks := s2.snacks ++ [{ message := otpSentMsg, severity := Severity.success }] }
        else
          { s2 with
            errors := s2.errors ++ [{ field := "phone", message := requestFailedMsg }] }
    { s3 with isSubmitting := false }
  else s

/-- Shallow embedding of handleResendOtp (lines 161-179): rebuild the payload,
    call requestOtp, reset the countdown to 30 whatever the status, and emit a
    snackbar chosen by the status.  A thrown call propagates before the
    setCountdown line.  isSubmitting is never touched here. -/
def handleResendOtp (outcome : RequestOutcome) (s : FlowState) : FlowState :=
  let s1 : FlowState := { s with requestCalls := s.requestCalls ++ [mkRequestPayload s.form] }
  match outcome with
  | RequestOutcome.thrown => s1
  | RequestOutcome.response status =>
    let s2 : FlowState := { s1 with countdown := 30 }
    if status == HTTP_OK then
      { s2 with snacks := s2.snacks ++ [{ message := otpResentMsg, severity := Severity.success }] }
    else
      { s2 with snacks := s2.snacks ++ [{ message := resendFailedMsg, severity := Severity.error }] }

/-- Gate of the resend button (lines 275-286): rendered only in the
    VerifyingOtp branch and disabled while countdown is positive or a
    submission is pending. -/
def resendEnabled (s : FlowState) : Bool :=
  s.isOtpSent && (s.countdown == 0 && !s.isSubmitting)

/-- The resend action as dispatched through the UI gate: a disabled or
    unrendered button is a no-op. -/
def resendAction (outcome : RequestOutcome) (s : FlowState) : FlowState :=
  if resendEnabled s then handleResendOtp outcome s else s

/-- Shallow embedding of handleBack (lines 182-190): leave VerifyingOtp, zero
    the countdown, and reset the form keeping phone and fullName while
    clearing otp; react-hook-form reset also clears field errors. -/
def handleBack (s : FlowState) : FlowState :=
  { s with
    isOtpSent := false
    countdown := 0
    form := { fullName := s.form.fullName, phone := s.form.phone, otp := "" }
    errors := [] }

/-- Concrete form values used by the witness states. -/
def exForm : SignInFormData :=
  { fullName := "Jane Doe", phone := "5551234567", otp := "000000" }

/-- Concrete state in the RequestingOtp phase. -/
def exState : FlowState :=
  { form := exForm
    isSubmitting := false
    isOtpSent := false
    countdown := 0
    errors := []
    snacks := []
    tokensSink := []
    userSink := []
    requestCalls := []
    verifyCalls := [] }

/-- Concrete state in the VerifyingOtp phase with countdown elapsed. -/
def exVerifyState : FlowState :=
  { exState with isOtpSent := true }

/-- Concrete VerifyingOtp state with five seconds of countdown left. -/
def exCountdown5 : FlowState :=
  { exVerifyState with countdown := 5 }

/-- Concrete state whose phone fails Rule Set A. -/
def exBadPhone : FlowState :=
  { exState with form := { exForm with phone := "555123" } }

/-- Concrete verify response data. -/
def exData : VerifyOtpData :=
  { token := "tok", refreshToken := "ref", tokenExpires := 1700000, user := "jane" }

/-- C1: the claim fails on the code.  In a concrete VerifyingOtp state, a
    verify response with status 500 (neither OK nor UNPROCESSABLE) and a
    thrown verifyOtp both complete with isSubmitting still true, because
    onSubmit has no try/finally; the request and resend call sites do leave
    the flag false. -/
theorem C1_verify_leaves_submitting_stuck :
    (onSubmit (VerifyOutcome.response 500 exData) exVerifyState).isSubmitting = true ∧
    (onSubmit VerifyOutcome.thrown exVerifyState).isSubmitting = true ∧
    (handleRequestOtp RequestOutcome.thrown exState).isSubmitting = false ∧
    (handleResendOtp RequestOutcome.thrown exVerifyState).isSubmitting = false := by
  decide

/-- C2: any non-OK status from the initial OTP request attaches exactly one
    phone field error whose message differs from the resend failure message,
    clears isSubmitting, and leaves the Phase at RequestingOtp. -/
theorem C2_request_failure (s : FlowState) (status : Nat)
    (hval : phoneRuleA s.form.phone = true)
    (hphase : s.isOtpSent = false)
    (hst : status ≠ HTTP_OK) :
    (handleRequestOtp (RequestOutcome.response status) s).errors
        = s.errors ++ [{ field := "phone", message := requestFailedMsg }] ∧
    requestFailedMsg ≠ resendFailedMsg ∧
    (handleRequestOtp (RequestOutcome.response status) s).isSubmitting = false ∧
    (handleRequestOtp (RequestOutcome.response status) s).phase = Phase.RequestingOtp := by
  refine ⟨?_, by decide, ?_, ?_⟩ <;>
    simp [handleRequestOtp, hval, hst, FlowState.phase, hphase]

/-- C2 witness: concrete failing initial request with status 500. -/
theorem C2_request_failure_witness :
    phoneRuleA exState.form.phone = true ∧ exState.isOtpSent = false ∧
    (500 : Nat) ≠ HTTP_OK ∧
    ((handleRequestOtp (RequestOutcome.response 500) exState).errors
        = exState.errors ++ [{ field := "phone", message := requestFailedMsg }] ∧
     requestFailedMsg ≠ resendFailedMsg ∧
     (handleRequestOtp (RequestOutcome.response 500) exState).isSubmitting = false ∧
     (handleRequestOtp (RequestOutcome.response 500) exState).phase = Phase.RequestingOtp) :=
  ⟨by decide, by decide, by decide,
   C2_request_failure exState 500 (by decide) (by decide) (by decide)⟩

/-- C3: with a positive countdown the gated resend action is a no-op and the
    countdown is unchanged; with countdown zero, in VerifyingOtp and with no
    pending submission, the action goes through to handleResendOtp. -/
theorem C3_resend_gate (s : FlowState) (outcome : RequestOutcome) :
    (0 < s.countdown →
      resendAction outcome s = s ∧
      (resendAction outcome s).countdown = s.countdown) ∧
    (s.countdown = 0 → s.phase = Phase.VerifyingOtp → s.isSubmitting = false →
      resendAction outcome s = handleResendOtp outcome s) := by
  constructor
  · intro h
    have hne : s.countdown ≠ 0 := by omega
    have hc : (s.countdown == 0) = false := by
      simpa using hne
    have he : resendEnabled s = false := by
      simp [resendEnabled, hc]
    constructor
    · simp [resendAction, he]
    · simp [resendAction, he]
  · intro h0 hph hsub
    have hot : s.isOtpSent = true := by
      cases hb : s.isOtpSent with
      | true => rfl
      | false => simp [FlowState.phase, hb] at hph
    have he : resendEnabled s = true := by
      simp [resendEnabled, hot, h0, hsub]
    simp [resendAction, he]

/-- C3 witness: from countdown 5 resend is a no-op leaving 5; at countdown 0
    in VerifyingOtp with no pending submission it goes through. -/
theorem C3_resend_gate_witness :
    (0 < exCountdown5.countdown ∧
     resendAction (RequestOutcome.response 200) exCountdown5 = exCountdown5 ∧
     (resendAction (RequestOutcome.response 200) exCountdown5).countdown
        = exCountdown5.countdown) ∧
    (exCountdown5.countdown = 5 ∧
     resendAction (RequestOutcome.response 200) exVerifyState
        = handleResendOtp (RequestOutcome.response 200) exVerifyState) :=
  ⟨⟨by decide,
    ((C3_resend_gate exCountdown5 (RequestOutcome.response 200)).1 (by decide)).1,
    ((C3_resend_gate exCountdown5 (RequestOutcome.response 200)).1 (by decide)).2⟩,
   by decide,
   (C3_resend_gate exVerifyState (RequestOutcome.response 200)).2
     (by decide) (by decide) (by decide)⟩

/-- C4: for every status returned by the underlying requestOtp call, resend
    resets the countdown to 30, emits the resent snackbar on OK and the
    generic server-error snackbar otherwise, and never sets isSubmitting. -/
theorem C4_resend_always_resets (s : FlowState) (status : Nat) :
    (handleResendOtp (RequestOutcome.response status) s).countdown = 30 ∧
    (handleResendOtp (RequestOutcome.response status) s).snacks
      = s.snacks ++ [if status == HTTP_OK
                     then { message := otpResentMsg, severity := Severity.success }
                     else { message := resendFailedMsg, severity := Severity.error }] ∧
    (handleResendOtp (RequestOutcome.response status) s).isSubmitting
      = s.isSubmitting := by
  by_cases h : status = HTTP_OK <;> simp [handleResendOtp, h]

/-- C5: a valid phone/fullName combination and an OK response to the initial
    OTP request lead to VerifyingOtp, countdown 30, a success snackbar, and
    isSubmitting false. -/
theorem C5_request_success (s : FlowState)
    (hval : phoneRuleA s.form.phone = true) :
    (handleRequestOtp (RequestOutcome.response HTTP_OK) s).phase
        = Phase.VerifyingOtp ∧
    (handleRequestOtp (RequestOutcome.response HTTP_OK) s).countdown = 30 ∧
    (handleRequestOtp (RequestOutcome.response HTTP_OK) s).snacks
        = s.snacks ++ [{ message := otpSentMsg, severity := Severity.success }] ∧
    (handleRequestOtp (RequestOutcome.response HTTP_OK) s).isSubmitting = false := by
  simp [handleRequestOtp, hval, FlowState.phase]

/-- C5 witness: concrete successful initial request. -/
theorem C5_request_success_witness :
    phoneRuleA exState.form.phone = true ∧
    ((handleRequestOtp (RequestOutcome.response HTTP_OK) exState).phase
        = Phase.VerifyingOtp ∧
     (handleRequestOtp (RequestOutcome.response HTTP_OK) exState).countdown = 30 ∧
     (handleRequestOtp (RequestOutcome.response HTTP_OK) exState).snacks
        = exState.snacks ++ [{ message := otpSentMsg, severity := Severity.success }] ∧
     (handleRequestOtp (RequestOutcome.response HTTP_OK) exState).isSubmitting = false) :=
  ⟨by decide, C5_request_success exState (by decide)⟩

/-- C6: an UNPROCESSABLE verify response keeps the Phase at VerifyingOtp,
    appends exactly one otp field error carrying the wrong-code message,
    clears isSubmitting, and leaves the form values and the countdown
    untouched. -/
theorem C6_verify_unprocessable (s : FlowState) (d : VerifyOtpData)
    (hphase : s.isOtpSent = true) :
    (onSubmit (VerifyOutcome.response HTTP_UNPROCESSABLE_ENTITY d) s).phase
        = Phase.VerifyingOtp ∧
    (onSubmit (VerifyOutcome.response HTTP_UNPROCESSABLE_ENTITY d) s).errors
        = s.errors ++ [{ field := "otp", message := wrongOtpMsg }] ∧
    (onSubmit (VerifyOutcome.response HTTP_UNPROCESSABLE_ENTITY d) s).isSubmitting
        = false ∧
    (onSubmit (VerifyOutcome.response HTTP_UNPROCESSABLE_ENTITY d) s).form = s.form ∧
    (onSubmit (VerifyOutcome.response HTTP_UNPROCESSABLE_ENTITY d) s).countdown
        = s.countdown := by
  simp [onSubmit, FlowState.phase, hphase]

/-- C6 witness: concrete rejected code in the VerifyingOtp state. -/
theorem C6_verify_unprocessable_witness :
    exVerifyState.isOtpSent = true ∧
    ((onSubmit (VerifyOutcome.response HTTP_UNPROCESSABLE_ENTITY exData) exVerifyState).phase
        = Phase.VerifyingOtp ∧
     (onSubmit (VerifyOutcome.response HTTP_UNPROCESSABLE_ENTITY exData) exVerifyState).errors
        = exVerifyState.errors ++ [{ field := "otp", message := wrongOtpMsg }] ∧
     (onSubmit (VerifyOutcome.response HTTP_UNPROCESSABLE_ENTITY exData) exVerifyState).isSubmitting
        = false ∧
     (onSubmit (VerifyOutcome.response HTTP_UNPROCESSABLE_ENTITY exData) exVerifyState).form
        = exVerifyState.form ∧
     (onSubmit (VerifyOutcome.response HTTP_UNPROCESSABLE_ENTITY exData) exVerifyState).countdown
        = exVerifyState.countdown) :=
  ⟨by decide, C6_verify_unprocessable exVerifyState exData (by decide)⟩

/-- C7: a phone failing the ten-digit pattern fails Rule Set A, and the
    request-OTP handler returns unchanged without issuing a network call. -/
theorem C7_invalid_phone_no_call (s : FlowState) (outcome : RequestOutcome)
    (h : matchesTenDigitsPlus s.form.phone = false) :
    phoneRuleA s.form.phone = false ∧
    handleRequestOtp outcome s = s := by
  have hA : phoneRuleA s.form.phone = false := by
    have hdef : phoneRuleA s.form.phone
        = ((s.form.phone != "") && matchesTenDigitsPlus s.form.phone) := rfl
    rw [hdef, h, Bool.and_false]
  exact ⟨hA, by simp [handleRequestOtp, hA]⟩

/-- C7 witness: a six-character phone fails validation and issues no call. -/
theorem C7_invalid_phone_no_call_witness :
    matchesTenDigitsPlus exBadPhone.form.phone = false ∧
    (phoneRuleA exBadPhone.form.phone = false ∧
     handleRequestOtp (RequestOutcome.response 200) exBadPhone = exBadPhone) :=
  ⟨by decide,
   C7_invalid_phone_no_call exBadPhone (RequestOutcome.response 200) (by decide)⟩

/-- C8: Back from VerifyingOtp yields RequestingOtp, countdown 0, cleared otp,
    preserved phone and fullName, issues no network call, and is idempotent. -/
theorem C8_back (s : FlowState) (hphase : s.phase = Phase.VerifyingOtp) :
    (handleBack s).phase = Phase.RequestingOtp ∧
    (handleBack s).countdown = 0 ∧
    (handleBack s).form.otp = "" ∧
    (handleBack s).form.phone = s.form.phone ∧
    (handleBack s).form.fullName = s.form.fullName ∧
    (handleBack s).requestCalls = s.requestCalls ∧
    (handleBack s).verifyCalls = s.verifyCalls ∧
    handleBack (handleBack s) = handleBack s :=
  ⟨rfl, rfl, rfl, rfl, rfl, rfl, rfl, rfl⟩

/-- C8 witness: Back applied in the concrete VerifyingOtp state. -/
theorem C8_back_witness :
    exVerifyState.phase = Phase.VerifyingOtp ∧
    ((handleBack exVerifyState).phase = Phase.RequestingOtp ∧
     (handleBack exVerifyState).countdown = 0 ∧
     (handleBack exVerifyState).form.otp = "" ∧
     (handleBack exVerifyState).form.phone = exVerifyState.form.phone ∧
     (handleBack exVerifyState).form.fullName = exVerifyState.form.fullName ∧
     (handleBack exVerifyState).requestCalls = exVerifyState.requestCalls ∧
     (handleBack exVerifyState).verifyCalls = exVerifyState.verifyCalls ∧
     handleBack (handleBack exVerifyState) = handleBack exVerifyState) :=
  ⟨by decide, C8_back exVerifyState (by decide)⟩

/-- C9: an OK verify response clears isSubmitting, emits the success
    snackbar, and passes token, refreshToken, tokenExpires and user to the
    session sinks. -/
theorem C9_verify_success (s : FlowState) (d : VerifyOtpData) :
    (onSubmit (VerifyOutcome.response HTTP_OK d) s).isSubmitting = false ∧
    (onSubmit (VerifyOutcome.response HTTP_OK d) s).snacks
        = s.snacks ++ [{ message := verifySuccessMsg, severity := Severity.success }] ∧
    (onSubmit (VerifyOutcome.response HTTP_OK d) s).tokensSink
        = s.tokensSink ++ [{ token := d.token
                             refreshToken := d.refreshToken
                             tokenExpires := d.tokenExpires }] ∧
    (onSubmit (VerifyOutcome.response HTTP_OK d) s).userSink
        = s.userSink ++ [d.user] := by
  simp [onSubmit, HTTP_OK, HTTP_UNPROCESSABLE_ENTITY]

/-- C10: both the initial request and the resend issue the payload built by
    mkRequestPayload, and that payload carries a fullName key exactly when the
    form value is a non-empty string. -/
theorem C10_payload_fullname (s : FlowState) (outcome : RequestOutcome)
    (hval : phoneRuleA s.form.phone = true) :
    (mkRequestPayload s.form).fullName
        = (if s.form.fullName = "" then none else some s.form.fullName) ∧
    (handleRequestOtp outcome s).requestCalls
        = s.requestCalls ++ [mkRequestPayload s.form] ∧
    (handleResendOtp outcome s).requestCalls
        = s.requestCalls ++ [mkRequestPayload s.form] := by
  refine ⟨?_, ?_, ?_⟩
  · by_cases h : s.form.fullName = "" <;> simp [mkRequestPayload, h]
  · cases outcome with
    | thrown => simp [handleRequestOtp, hval]
    | response status =>
      by_cases h : status = HTTP_OK <;> simp [handleRequestOtp, hval, h]
  · cases outcome with
    | thrown => simp [handleResendOtp]
    | response status =>
      by_cases h : status = HTTP_OK <;> simp [handleResendOtp, h]

/-- C10 witness: concrete request with a non-empty fullName. -/
theorem C10_payload_fullname_witness :
    phoneRuleA exState.form.phone = true ∧
    ((mkRequestPayload exState.form).fullName
        = (if exState.form.fullName = "" then none else some exState.form.fullName) ∧
     (handleRequestOtp (RequestOutcome.response 200) exState).requestCalls
        = exState.requestCalls ++ [mkRequestPayload exState.form] ∧
     (handleResendOtp (RequestOutcome.response 200) exState).requestCalls
        = exState.requestCalls ++ [mkRequestPayload exState.form]) :=
  ⟨by decide, C10_payload_fullname exState (RequestOutcome.response 200) (by decide)⟩

end JandiraSignIn
